import Mathlib

/-!
Verification of the padloper `structure.py` client-side domain layer.

The graph database is modelled as an explicit state (`Graph`): a list of
vertices and a list of edges, each carrying the lifecycle attributes the
source writes on every element.  Gremlin traversals become list filters over
that state; client-side Python objects (`Component`, `Property`, the
timestamped edge instances, ...) become Lean structures whose fields are the
attributes assigned in the corresponding `__init__`.  Operations that mutate
the database are state-passing functions `Graph → ... → Graph × Except PyErr α`;
a Python `raise` is an `.error` result paired with the state reached at the
raise point (all the modelled operations check their preconditions before the
first mutating traversal, so an early `.error` is returned with the input
state unchanged).
-/

namespace Padloper

/-- Placeholder for the `end_time` attribute of a relation that is still
ongoing; `2**63 - 1` in the source. -/
def EXISTING_RELATION_END_PLACEHOLDER : Int := 2 ^ 63 - 1

/-- Placeholder for the `end_edit_time` attribute of a relation that is
still ongoing. -/
def EXISTING_RELATION_END_EDIT_PLACEHOLDER : Int := -1

/-- Placeholder for the ID of an element that does not exist serverside. -/
def VIRTUAL_ID_PLACEHOLDER : Int := -1

/-- Client-side `Timestamp` (class `Timestamp` in the source): the time of
the event, the user who recorded it, when it was recorded, and comments. -/
structure Timestamp where
  time : Int
  uid : String
  edit_time : Int
  comments : String
deriving Repr, DecidableEq

/-- The eight start/end attributes stored on a timestamped edge
(`TimestampedEdge.add` writes exactly these keys). -/
structure EdgeTS where
  start_time : Int
  start_uid : String
  start_edit_time : Int
  start_comments : String
  end_time : Int
  end_uid : String
  end_edit_time : Int
  end_comments : String
deriving Repr, DecidableEq

/-- A vertex as stored in the graph database.  `Vertex.add` writes
`category`, `time_added`, `time_disabled`, `active` and `replacement` on
every vertex; `name` holds the kind's name-like attribute (empty for kinds
without one) and `values` the `values` attribute of property vertices.
Scalar attributes no modelled operation reads back from the store (units,
comments, regexes, ...) are not represented. -/
structure GVertex where
  vid : Int
  category : String
  active : Bool
  name : String
  values : List String
  time_added : Int
  time_disabled : Int
  replacement : Int
deriving Repr, DecidableEq

/-- An edge as stored in the graph database.  The edge goes out of `outV`
into `inV` (`g.V(outVertex).addE(category).to(inVertex)` in `Edge.add`).
`ts` holds the eight start/end attributes for timestamped edges and is
`none` for the structural edge kinds, which never carry them. -/
structure GEdge where
  eid : Int
  category : String
  outV : Int
  inV : Int
  active : Bool
  ts : Option EdgeTS
deriving Repr, DecidableEq

/-- The graph database state. -/
structure Graph where
  vertices : List GVertex
  edges : List GEdge
deriving Repr, DecidableEq

/-- Does the edge touch vertex `v` (in either direction)? -/
def GEdge.touches (e : GEdge) (v : Int) : Bool :=
  e.outV == v || e.inV == v

/-- The endpoint of `e` other than `v` (gremlin `otherV()` after reaching
`e` from `v`). -/
def GEdge.otherV (e : GEdge) (v : Int) : Int :=
  if e.outV == v then e.inV else e.outV

/-- Gremlin `g.V(v).bothE(cat)`: the edges of category `cat` incident to
`v` in either direction. -/
def Graph.bothE (g : Graph) (v : Int) (cat : String) : List GEdge :=
  g.edges.filter (fun e => e.category == cat && e.touches v)

/-- Gremlin `g.V(v).inE(cat)`: the edges of category `cat` pointing into `v`. -/
def Graph.inE (g : Graph) (v : Int) (cat : String) : List GEdge :=
  g.edges.filter (fun e => e.category == cat && e.inV == v)

/-- Gremlin `g.V(v).outE(cat)`: the edges of category `cat` going out of `v`. -/
def Graph.outE (g : Graph) (v : Int) (cat : String) : List GEdge :=
  g.edges.filter (fun e => e.category == cat && e.outV == v)

/-- Look a vertex up by ID (gremlin `g.V(v)`). -/
def Graph.findVertex (g : Graph) (v : Int) : Option GVertex :=
  g.vertices.find? (fun w => w.vid == v)

/-- The `name` attribute of vertex `v` (empty when the vertex is absent). -/
def Graph.vertexName (g : Graph) (v : Int) : String :=
  ((g.findVertex v).map GVertex.name).getD ""

/-- The `values` attribute of vertex `v` (empty when the vertex is absent). -/
def Graph.vertexValues (g : Graph) (v : Int) : List String :=
  ((g.findVertex v).map GVertex.values).getD []

/-- Gremlin `has('start_time', P.lte(t))`: true only when the edge carries
the timestamp attributes and its start time is at most `t`. -/
def GEdge.startLe (e : GEdge) (t : Int) : Bool :=
  match e.ts with
  | some s => decide (s.start_time ≤ t)
  | none => false

/-- Gremlin `has('start_time', P.lt(t))`. -/
def GEdge.startLt (e : GEdge) (t : Int) : Bool :=
  match e.ts with
  | some s => decide (s.start_time < t)
  | none => false

/-- Gremlin `has('end_time', P.gt(t))`. -/
def GEdge.endGt (e : GEdge) (t : Int) : Bool :=
  match e.ts with
  | some s => decide (t < s.end_time)
  | none => false

/-- Gremlin `has('end_edit_time', EXISTING_RELATION_END_EDIT_PLACEHOLDER)`:
the edge's end has not been superseded by a later edit. -/
def GEdge.endEditOpen (e : GEdge) : Bool :=
  match e.ts with
  | some s => s.end_edit_time == EXISTING_RELATION_END_EDIT_PLACEHOLDER
  | none => false

/-- The `start_time` attribute of a timestamped edge (`0` when absent; the
modelled traversals only read it after a timestamp filter has passed). -/
def GEdge.startTimeVal (e : GEdge) : Int :=
  (e.ts.map EdgeTS.start_time).getD 0

/-- The `end_time` attribute of a timestamped edge
(`EXISTING_RELATION_END_PLACEHOLDER` when absent). -/
def GEdge.endTimeVal (e : GEdge) : Int :=
  (e.ts.map EdgeTS.end_time).getD EXISTING_RELATION_END_PLACEHOLDER

/-- The start `Timestamp` read off a stored timestamped edge. -/
def GEdge.startTimestamp (e : GEdge) : Timestamp :=
  match e.ts with
  | some s => ⟨s.start_time, s.start_uid, s.start_edit_time, s.start_comments⟩
  | none => ⟨0, "", 0, ""⟩

/-- The end `Timestamp` read off a stored timestamped edge. -/
def GEdge.endTimestamp (e : GEdge) : Timestamp :=
  match e.ts with
  | some s => ⟨s.end_time, s.end_uid, s.end_edit_time, s.end_comments⟩
  | none => ⟨EXISTING_RELATION_END_PLACEHOLDER, "",
             EXISTING_RELATION_END_EDIT_PLACEHOLDER, ""⟩

/-- A fresh serverside ID, one larger than every ID in use. -/
def Graph.nextId (g : Graph) : Int :=
  1 + ((g.vertices.map GVertex.vid) ++ (g.edges.map GEdge.eid)).foldr max 0

/-- Append a new active edge (`Edge.add`): the edge goes out of `outId`
into `inId` and carries the timestamp attributes when given. -/
def Graph.addEdge (g : Graph) (cat : String) (outId inId : Int)
    (ts : Option EdgeTS) : Graph :=
  { g with edges := g.edges ++
      [{ eid := g.nextId, category := cat, outV := outId, inV := inId,
         active := true, ts := ts }] }

/-- Wire-level category strings of the vertex and edge kinds involved in
the modelled operations (class attributes `category` in the source). -/
def ComponentType.category : String := "component_type"

/-- Category string of `ComponentVersion`. -/
def ComponentVersion.category : String := "component_version"

/-- Category string of `Component`. -/
def Component.category : String := "component"

/-- Category string of `PropertyType`. -/
def PropertyType.category : String := "property_type"

/-- Category string of `Property`. -/
def Property.category : String := "property"

/-- Category string of `UserGroup`. -/
def UserGroup.category : String := "user_group"

/-- Category string of `RelationConnection`. -/
def RelationConnection.category : String := "rel_connection"

/-- Category string of `RelationProperty`. -/
def RelationProperty.category : String := "rel_property"

/-- Category string of `RelationVersion`. -/
def RelationVersion.category : String := "rel_version"

/-- Category string of `RelationVersionAllowedType`. -/
def RelationVersionAllowedType.category : String := "rel_version_allowed_type"

/-- Category string of `RelationComponentType`. -/
def RelationComponentType.category : String := "rel_component_type"

/-- Category string of `RelationSubcomponent`. -/
def RelationSubcomponent.category : String := "rel_subcomponent"

/-- Category string of `RelationPropertyType`. -/
def RelationPropertyType.category : String := "rel_property_type"

/-- Category string of `RelationPropertyAllowedType`. -/
def RelationPropertyAllowedType.category : String := "rel_property_allowed_type"

/-- Category string of `RelationFlagComponent`. -/
def RelationFlagComponent.category : String := "rel_flag_component"

/-- Category string of `RelationFlagType`. -/
def RelationFlagType.category : String := "rel_flag_type"

/-- Category string of `RelationFlagSeverity`. -/
def RelationFlagSeverity.category : String := "rel_flag_severity"

/-- The domain and runtime failures raised by the modelled operations.
Each constructor mirrors one exception class of the source (the
`attributeError` and `assertionError` constructors mirror Python's built-in
`AttributeError` and `AssertionError`). -/
inductive PyErr where
  | vertexAlreadyAdded
  | edgeAlreadyAdded
  | componentNotAdded
  | propertyTypeNotAdded
  | propertyNotAdded
  | propertyIsSame
  | setPropertyBeforeExistingProperty
  | propertiesOverlapping
  | componentsAlreadyConnected
  | componentsAlreadyDisconnected
  | connectBeforeExistingConnection
  | connectionsOverlapping
  | connectToSelf
  | alreadySubcomponent
  | isSubcomponentOfOther
  | subcomponentToSelf
  | propertyWrongNValues
  | propertyNotMatchRegex
  | attributeError (attr : String)
  | assertionError
deriving Repr, DecidableEq

/-- Values a Python attribute lookup can produce on the modelled client
objects. -/
inductive PyVal where
  | int : Int → PyVal
  | str : String → PyVal
  | tstamp : Timestamp → PyVal
  | vertexRef : Int → PyVal
deriving Repr, DecidableEq

deriving instance DecidableEq for Except

/-- A client-side `TimestampedEdge` instance (`RelationProperty` /
`RelationConnection`).  Its instance dictionary holds exactly the fields
assigned in `TimestampedEdge.__init__` / `Edge.__init__` / `Element.__init__`:
`start`, `end`, `inVertex`, `outVertex` and `_id`; the class additionally
provides `category`.  The field `end_ts` models the Python attribute `end`
(a Lean keyword). -/
structure TimestampedEdgeObj where
  id : Int
  inVertexId : Int
  outVertexId : Int
  category : String
  start : Timestamp
  end_ts : Timestamp
deriving Repr, DecidableEq

/-- Python attribute lookup on a client-side `TimestampedEdge` object.
Only the attributes listed in `TimestampedEdgeObj` exist; looking up any
other name — in particular `start_time`, which `set_property` and `connect`
access on the first future edge — yields `none`, an `AttributeError`. -/
def TimestampedEdgeObj.getattr (e : TimestampedEdgeObj) (a : String) :
    Option PyVal :=
  if a == "inVertex" then some (.vertexRef e.inVertexId)
  else if a == "outVertex" then some (.vertexRef e.outVertexId)
  else if a == "start" then some (.tstamp e.start)
  else if a == "end" then some (.tstamp e.end_ts)
  else if a == "_id" then some (.int e.id)
  else if a == "category" then some (.str e.category)
  else none

/-- Insert `a` into an already sorted list, keeping it sorted by `le`. -/
def insertSortedBy {α : Type} (le : α → α → Bool) : α → List α → List α
  | a, [] => [a]
  | a, b :: bs => if le a b then a :: b :: bs else b :: insertSortedBy le a bs

/-- Insertion sort by `le`; models the traversals' `order().by(..., asc)`
step on concrete result lists. -/
def sortBy {α : Type} (le : α → α → Bool) : List α → List α
  | [] => []
  | a :: as => insertSortedBy le a (sortBy le as)

/-- Client-side `ComponentType` object: the fields assigned in
`ComponentType.__init__`. -/
structure ComponentType where
  name : String
  comments : String
  id : Int
deriving Repr, DecidableEq

/-- Client-side `ComponentVersion` object (the `allowed_type` reference is
not read by any modelled operation and is not represented). -/
structure ComponentVersion where
  name : String
  comments : String
  id : Int
deriving Repr, DecidableEq

/-- Client-side `Component` object: the fields assigned in
`Component.__init__` (`type` is a `ComponentType`, `version` an optional
`ComponentVersion`). -/
structure Component where
  name : String
  type : ComponentType
  version : Option ComponentVersion
  time_added : Int
  id : Int
deriving Repr, DecidableEq

/-- Client-side `PropertyType` object.  The `allowed_types` list is not
read by any modelled operation and is not represented. -/
structure PropertyType where
  name : String
  units : String
  allowed_regex : String
  n_values : Nat
  comments : String
  id : Int
deriving Repr, DecidableEq

/-- Client-side `Property` object: an ordered list of string values and
its `PropertyType`. -/
structure Property where
  values : List String
  type : PropertyType
  id : Int
deriving Repr, DecidableEq

/-- Client-side `UserGroup` object (its `permission` list is not read by
`added_to_db` and is not represented). -/
structure UserGroup where
  name : String
  comments : String
  id : Int
deriving Repr, DecidableEq

/-- Generic `Vertex.added_to_db`: the ID is concrete, or `g.V(id)` returns
a vertex. -/
def Vertex.added_to_db (g : Graph) (id : Int) : Bool :=
  id != VIRTUAL_ID_PLACEHOLDER ||
    decide (0 < (g.vertices.filter (fun v => v.vid == id)).length)

/-- Embedding of `ComponentType.added_to_db`: concrete ID, or at least one
vertex of category `component_type` with this name and `active = true`. -/
def ComponentType.added_to_db (g : Graph) (self : ComponentType) : Bool :=
  self.id != VIRTUAL_ID_PLACEHOLDER ||
    decide (0 < (g.vertices.filter (fun v =>
      v.category == ComponentType.category && v.name == self.name &&
      v.active)).length)

/-- Embedding of `Component.added_to_db`: concrete ID, or at least one
vertex of category `component` with this name and `active = true`. -/
def Component.added_to_db (g : Graph) (self : Component) : Bool :=
  self.id != VIRTUAL_ID_PLACEHOLDER ||
    decide (0 < (g.vertices.filter (fun v =>
      v.category == Component.category && v.name == self.name &&
      v.active)).length)

/-- Embedding of `PropertyType.added_to_db`: concrete ID, or at least one
vertex of category `property_type` with this name and `active = true`. -/
def PropertyType.added_to_db (g : Graph) (self : PropertyType) : Bool :=
  self.id != VIRTUAL_ID_PLACEHOLDER ||
    decide (0 < (g.vertices.filter (fun v =>
      v.category == PropertyType.category && v.name == self.name &&
      v.active)).length)

/-- Embedding of `UserGroup.added_to_db`: concrete ID, or the count of
vertices of category `user_group` with this name — with no filter on
`active` — equals exactly one. -/
def UserGroup.added_to_db (g : Graph) (self : UserGroup) : Bool :=
  self.id != VIRTUAL_ID_PLACEHOLDER ||
    ((g.vertices.filter (fun v =>
      v.category == UserGroup.category && v.name == self.name)).length == 1)

/-- Embedding of `Property.__init__` as a checked constructor.  `fullmatch`
stands for the external `re.fullmatch` oracle (the regex engine is outside
the modelled core): `fullmatch pattern val = true` iff `val` fully matches
`pattern`.  The `isinstance(values, str)` coercion of the source is a
Python-level type fixup with no counterpart in a typed embedding. -/
def Property.init (fullmatch : String → String → Bool) (values : List String)
    (type : PropertyType) (id : Int) : Except PyErr Property :=
  if values.length ≠ type.n_values then
    .error .propertyWrongNValues
  else if !(values.all (fun val => fullmatch type.allowed_regex val)) then
    .error .propertyNotMatchRegex
  else
    .ok { values := values, type := type, id := id }

/-- Is the vertex `pid` linked by a `rel_property_type` edge (in either
direction, with no `active` filter — the source adds none) to a vertex
named `tname`?  Models `.both(RelationPropertyType.category).has('name', tname)`. -/
def propertyVertexHasTypeNamed (g : Graph) (pid : Int) (tname : String) : Bool :=
  (g.bothE pid RelationPropertyType.category).any (fun e =>
    g.vertexName (e.otherV pid) == tname)

/-- The name of the property type vertex linked to property vertex `pid`
(first `rel_property_type` neighbour; empty when there is none). -/
def propertyVertexTypeName (g : Graph) (pid : Int) : String :=
  match g.bothE pid RelationPropertyType.category with
  | [] => ""
  | e :: _ => g.vertexName (e.otherV pid)

/-- The attributes of the client `Property` object built by
`Property.from_id`: the vertex ID, its `values`, and the name of its
property type (the full `PropertyType` object carries more attributes, but
the modelled operations read only these). -/
structure PropView where
  id : Int
  values : List String
  type_name : String
deriving Repr, DecidableEq

/-- Embedding of `Property.from_id` restricted to the attributes the
modelled operations read back. -/
def Property.from_id_view (g : Graph) (pid : Int) : PropView :=
  { id := pid, values := g.vertexValues pid,
    type_name := propertyVertexTypeName g pid }

/-- Embedding of `Component.get_property`: the at-most-one property of the
given type whose active `rel_property` edge contains `time`.  An empty hit
list yields `none`; more than one hit fails the source's `assert len(vs) == 1`. -/
def Component.get_property (g : Graph) (self : Component)
    (type : PropertyType) (time : Int) : Except PyErr (Option PropView) :=
  if !(Component.added_to_db g self) then .error .componentNotAdded
  else if !(PropertyType.added_to_db g type) then .error .propertyTypeNotAdded
  else
    match (g.bothE self.id RelationProperty.category).filter (fun e =>
        e.active && e.startLe time && e.endGt time &&
        propertyVertexHasTypeNamed g (e.otherV self.id) type.name) with
    | [] => .ok none
    | [e] => .ok (some (Property.from_id_view g (e.otherV self.id)))
    | _ => .error .assertionError

/-- The client `RelationProperty` object built by
`get_all_properties_of_type` for a stored edge: as in the source, its
`outVertex` is set to the property *type* vertex (`outVertexId := type.id`)
rather than the property instance — the oddity the source itself warns
about with a `print` just before constructing it. -/
def mkRelationPropertyObj (self : Component) (type : PropertyType)
    (e : GEdge) : TimestampedEdgeObj :=
  { id := e.eid, inVertexId := self.id, outVertexId := type.id,
    category := RelationProperty.category,
    start := e.startTimestamp, end_ts := e.endTimestamp }

/-- Embedding of `Component.get_all_properties_of_type`: all active
`rel_property` edges of the given type whose end has not been superseded
(`end_edit_time` still open), overlapping `[from_time, to_time)` — the
upper bound is applied only when `to_time` is finite — ordered by
`start_time` ascending. -/
def Component.get_all_properties_of_type (g : Graph) (self : Component)
    (type : PropertyType) (from_time to_time : Int) :
    Except PyErr (List TimestampedEdgeObj) :=
  if !(Component.added_to_db g self) then .error .componentNotAdded
  else if !(PropertyType.added_to_db g type) then .error .propertyTypeNotAdded
  else
    let hits := (g.bothE self.id RelationProperty.category).filter (fun e =>
      e.active && e.endEditOpen &&
      (if to_time < EXISTING_RELATION_END_PLACEHOLDER then e.startLt to_time
       else true) &&
      e.endGt from_time &&
      propertyVertexHasTypeNamed g (e.otherV self.id) type.name)
    let sorted := sortBy (fun a b => decide (a.startTimeVal ≤ b.startTimeVal)) hits
    .ok (sorted.map (mkRelationPropertyObj self type))

/-- The edge update at the end of `Component.unset_property`: on every
`rel_property` edge between property vertex `pid` and component `selfId`
whose `end_time` is still the open placeholder, write the four end
attributes.  As in the source, there is no `active` filter here. -/
def Graph.unsetPropertyEdgeEnd (g : Graph) (pid selfId : Int) (t : Int)
    (uid : String) (edit_time : Int) (comments : String) : Graph :=
  { g with edges := g.edges.map (fun e =>
      if e.category == RelationProperty.category && e.touches pid &&
         (e.otherV pid == selfId) &&
         ((e.ts.map (fun s => s.end_time == EXISTING_RELATION_END_PLACEHOLDER)).getD false)
      then { e with ts := e.ts.map (fun s =>
              { s with end_time := t, end_uid := uid,
                       end_edit_time := edit_time, end_comments := comments }) }
      else e) }

/-- Embedding of `Component.unset_property`: close the open `rel_property`
edge of the property's type active at `time`.  No matching edge raises
`PropertyNotAdded`; an edge that already has a finite end raises
`PropertyIsSame`; more than one match fails the source's assert. -/
def Component.unset_property (g : Graph) (self : Component)
    (property : PropView) (time : Int) (uid : String) (edit_time : Int)
    (comments : String) : Graph × Except PyErr Unit :=
  if !(Component.added_to_db g self) then (g, .error .componentNotAdded)
  else if !(Vertex.added_to_db g property.id) then (g, .error .propertyNotAdded)
  else
    match (g.bothE self.id RelationProperty.category).filter (fun e =>
        e.active && e.startLe time && e.endGt time &&
        propertyVertexHasTypeNamed g (e.otherV self.id) property.type_name) with
    | [] => (g, .error .propertyNotAdded)
    | [e] =>
      if decide (e.endTimeVal < EXISTING_RELATION_END_PLACEHOLDER) then
        (g, .error .propertyIsSame)
      else
        (g.unsetPropertyEdgeEnd property.id self.id time uid edit_time comments,
         .ok ())
    | _ => (g, .error .assertionError)

/-- The tail of `Component.set_property` after its policy checks: build the
virtual copy of the property through `Property.__init__` (re-running its
checks), persist it (`Property._add`: the property vertex, the property
type vertex when not yet added, and the `rel_property_type` edge), then add
the `rel_property` edge carrying the start and end timestamps.  The nested
`PropertyType.add`'s own `rel_property_allowed_type` edges are not
represented (no modelled operation reads them). -/
def Component.set_property_attach (fullmatch : String → String → Bool)
    (g : Graph) (self : Component) (property : Property) (time : Int)
    (uid : String) (end_time : Int) (end_uid : String)
    (edit_time end_edit_time : Int) (comments end_comments : String) :
    Graph × Except PyErr Property :=
  match Property.init fullmatch property.values property.type
      VIRTUAL_ID_PLACEHOLDER with
  | .error e => (g, .error e)
  | .ok prop0 =>
    let pid := g.nextId
    let prop_copy := { prop0 with id := pid }
    let g1 : Graph := { g with vertices := g.vertices ++
      [{ vid := pid, category := Property.category, active := true,
         name := "", values := prop_copy.values, time_added := 0,
         time_disabled := EXISTING_RELATION_END_EDIT_PLACEHOLDER,
         replacement := 0 }] }
    let typeAdded := PropertyType.added_to_db g1 property.type
    let typeId := if typeAdded then property.type.id else g1.nextId
    let g2 : Graph := if typeAdded then g1 else
      { g1 with vertices := g1.vertices ++
        [{ vid := typeId, category := PropertyType.category, active := true,
           name := property.type.name, values := [], time_added := 0,
           time_disabled := EXISTING_RELATION_END_EDIT_PLACEHOLDER,
           replacement := 0 }] }
    let g3 := g2.addEdge RelationPropertyType.category pid typeId none
    let g4 := g3.addEdge RelationProperty.category self.id pid
      (some { start_time := time, start_uid := uid,
              start_edit_time := edit_time, start_comments := comments,
              end_time := end_time, end_uid := end_uid,
              end_edit_time := end_edit_time, end_comments := end_comments })
    (g4, .ok prop_copy)

/-- Embedding of `Component.set_property`.  Policy, in source order: a
current property of the same type containing `time` with equal values
raises `PropertyIsSame` (before any mutation); with different values it is
closed at `time` and the new one attached.  Otherwise, future properties of
the same type make it fail `SetPropertyBeforeExistingProperty` unless
`force_property` is set, in which case a caller-supplied finite `end_time`
raises `PropertiesOverlapping`, and an open `end_time` is capped by reading
the attribute `start_time` off the first future `RelationProperty` object —
an attribute that object does not have. -/
def Component.set_property (fullmatch : String → String → Bool) (g : Graph)
    (self : Component) (property : Property) (time : Int) (uid : String)
    (end_time : Int) (edit_time : Int) (comments : String)
    (force_property : Bool) : Graph × Except PyErr Property :=
  let end_uid := ""
  let end_comments := ""
  if !(Component.added_to_db g self) then (g, .error .componentNotAdded)
  else
    match Component.get_property g self property.type time with
    | .error e => (g, .error e)
    | .ok (some current_property) =>
      if current_property.values == property.values then
        (g, .error .propertyIsSame)
      else
        match Component.unset_property g self current_property time uid
            edit_time comments with
        | (g1, .error e) => (g1, .error e)
        | (g1, .ok _) =>
          Component.set_property_attach fullmatch g1 self property time uid
            end_time end_uid edit_time EXISTING_RELATION_END_EDIT_PLACEHOLDER
            comments end_comments
    | .ok none =>
      match Component.get_all_properties_of_type g self property.type time
          EXISTING_RELATION_END_PLACEHOLDER with
      | .error e => (g, .error e)
      | .ok existing_properties =>
        match existing_properties with
        | e0 :: _ =>
          if force_property then
            if end_time != EXISTING_RELATION_END_PLACEHOLDER then
              (g, .error .propertiesOverlapping)
            else
              match e0.getattr "start_time" with
              | some (.int v) =>
                Component.set_property_attach fullmatch g self property time
                  uid v uid edit_time edit_time comments comments
              | _ => (g, .error (.attributeError "start_time"))
          else
            (g, .error .setPropertyBeforeExistingProperty)
        | [] =>
          Component.set_property_attach fullmatch g self property time uid
            end_time end_uid edit_time EXISTING_RELATION_END_EDIT_PLACEHOLDER
            comments end_comments

/-- The client `RelationConnection` object built by `get_connection` /
`get_all_connections_with` for a stored edge: `inVertex := self`,
`outVertex := component`, timestamps from the edge attributes. -/
def mkRelationConnectionObj (self other : Component) (e : GEdge) :
    TimestampedEdgeObj :=
  { id := e.eid, inVertexId := self.id, outVertexId := other.id,
    category := RelationConnection.category,
    start := e.startTimestamp, end_ts := e.endTimestamp }

/-- Embedding of `Component.get_connection`: the at-most-one active
`rel_connection` edge between the two components containing `time`.  More
than one match fails the source's `assert len(e) == 1`. -/
def Component.get_connection (g : Graph) (self other : Component)
    (time : Int) : Except PyErr (Option TimestampedEdgeObj) :=
  if !(Component.added_to_db g self) then .error .componentNotAdded
  else if !(Component.added_to_db g other) then .error .componentNotAdded
  else
    match (g.bothE self.id RelationConnection.category).filter (fun e =>
        e.active && e.startLe time && e.endGt time &&
        (e.otherV self.id == other.id)) with
    | [] => .ok none
    | [e] => .ok (some (mkRelationConnectionObj self other e))
    | _ => .error .assertionError

/-- Embedding of `Component.get_all_connections_with`: all active
`rel_connection` edges between the two components overlapping
`[from_time, to_time)` — the upper bound applied only when `to_time` is
finite — ordered by `start_time` ascending. -/
def Component.get_all_connections_with (g : Graph) (self other : Component)
    (from_time to_time : Int) : Except PyErr (List TimestampedEdgeObj) :=
  if !(Component.added_to_db g self) then .error .componentNotAdded
  else if !(Component.added_to_db g other) then .error .componentNotAdded
  else
    let hits := (g.bothE self.id RelationConnection.category).filter (fun e =>
      e.active &&
      (if to_time < EXISTING_RELATION_END_PLACEHOLDER then e.startLt to_time
       else true) &&
      e.endGt from_time &&
      (e.otherV self.id == other.id))
    let sorted := sortBy (fun a b => decide (a.startTimeVal ≤ b.startTimeVal)) hits
    .ok (sorted.map (mkRelationConnectionObj self other))

/-- Embedding of `Component.connect`.  Checks, in source order: both
components added; equal *names* raise `ConnectToSelf`; an active connection
containing `time` raises `ComponentsAlreadyConnected`; otherwise existing
future connections make it fail `ConnectBeforeExistingConnection` unless
`force_connection` is set, in which case a caller-supplied finite
`end_time` raises `ConnectionsOverlapping` and an open `end_time` is capped
by reading the attribute `start_time` off the first future
`RelationConnection` object — an attribute that object does not have.
Success appends the new `rel_connection` edge
(`RelationConnection(inVertex=self, outVertex=component)`, so the stored
edge goes out of `component` into `self`). -/
def Component.connect (g : Graph) (self other : Component) (time : Int)
    (uid : String) (end_time : Int) (edit_time : Int) (comments : String)
    (force_connection : Bool) : Graph × Except PyErr Unit :=
  let end_uid := ""
  let end_comments := ""
  if !(Component.added_to_db g self) then (g, .error .componentNotAdded)
  else if !(Component.added_to_db g other) then (g, .error .componentNotAdded)
  else if self.name == other.name then (g, .error .connectToSelf)
  else
    match Component.get_connection g self other time with
    | .error e => (g, .error e)
    | .ok (some _) => (g, .error .componentsAlreadyConnected)
    | .ok none =>
      match Component.get_all_connections_with g self other time
          EXISTING_RELATION_END_PLACEHOLDER with
      | .error e => (g, .error e)
      | .ok existing_connections =>
        match existing_connections with
        | e0 :: _ =>
          if force_connection then
            if end_time != EXISTING_RELATION_END_PLACEHOLDER then
              (g, .error .connectionsOverlapping)
            else
              match e0.getattr "start_time" with
              | some (.int v) =>
                (g.addEdge RelationConnection.category other.id self.id
                  (some { start_time := time, start_uid := uid,
                          start_edit_time := edit_time,
                          start_comments := comments,
                          end_time := v, end_uid := uid,
                          end_edit_time := edit_time,
                          end_comments := comments }),
                 .ok ())
              | _ => (g, .error (.attributeError "start_time"))
          else
            (g, .error .connectBeforeExistingConnection)
        | [] =>
          (g.addEdge RelationConnection.category other.id self.id
            (some { start_time := time, start_uid := uid,
                    start_edit_time := edit_time, start_comments := comments,
                    end_time := end_time, end_uid := end_uid,
                    end_edit_time := EXISTING_RELATION_END_EDIT_PLACEHOLDER,
                    end_comments := end_comments }),
           .ok ())

/-- Embedding of `Component.get_subcomponent`: the traversal is
`bothE(RelationSubcomponent.category)` — it matches the active
`rel_subcomponent` edge between the two components in *either* direction.
More than one match fails the source's `assert len(e) == 1`. -/
def Component.get_subcomponent (g : Graph) (self other : Component) :
    Except PyErr (Option GEdge) :=
  if !(Component.added_to_db g self) then .error .componentNotAdded
  else if !(Component.added_to_db g other) then .error .componentNotAdded
  else
    match (g.bothE self.id RelationSubcomponent.category).filter (fun e =>
        e.active && (e.otherV self.id == other.id)) with
    | [] => .ok none
    | [e] => .ok (some e)
    | _ => .error .assertionError

/-- Embedding of `Component.subcomponent_connect`.  Checks, in source
order: both components added; equal *names* raise `SubcomponentToSelf`;
then `get_subcomponent` is evaluated in both argument orders and the
inverse-order result is tested first (`IsSubcomponentOfOther`), the
same-order result second (`AlreadySubcomponent`).  Success appends the
`rel_subcomponent` edge (`RelationSubcomponent(inVertex=self,
outVertex=component)`, so the stored edge goes out of `component` into
`self`). -/
def Component.subcomponent_connect (g : Graph) (self other : Component) :
    Graph × Except PyErr Unit :=
  if !(Component.added_to_db g self) then (g, .error .componentNotAdded)
  else if !(Component.added_to_db g other) then (g, .error .componentNotAdded)
  else if self.name == other.name then (g, .error .subcomponentToSelf)
  else
    match Component.get_subcomponent g self other with
    | .error e => (g, .error e)
    | .ok current_subcomponent =>
      match Component.get_subcomponent g other self with
      | .error e => (g, .error e)
      | .ok component_to_subcomponent =>
        if component_to_subcomponent.isSome then
          (g, .error .isSubcomponentOfOther)
        else if current_subcomponent.isSome then
          (g, .error .alreadySubcomponent)
        else
          (g.addEdge RelationSubcomponent.category other.id self.id none,
           .ok ())

/-- The six edge categories skipped — by `continue` — in the
*outgoing*-edge loop of `Vertex.replace`. -/
def replaceSkippedCategory (cat : String) : Bool :=
  cat == RelationVersionAllowedType.category ||
  cat == RelationPropertyAllowedType.category ||
  cat == RelationFlagSeverity.category ||
  cat == RelationFlagType.category ||
  cat == RelationComponentType.category ||
  cat == RelationVersion.category

/-- The outgoing edges of `selfId` recreated on the successor by
`Vertex.replace`: every outgoing edge whose category is not among the six
skipped ones, retargeted to go out of `newId`, with category and all edge
attributes copied verbatim.  The serverside assigns the copies fresh edge
IDs; no modelled operation reads them, so the IDs are kept. -/
def Vertex.replace_transferred_out (g : Graph) (selfId newId : Int) :
    List GEdge :=
  ((g.edges.filter (fun e => e.outV == selfId)).filter (fun e =>
    !(replaceSkippedCategory e.category))).map (fun e => { e with outV := newId })

/-- The incoming-edge loop of `Vertex.replace` has no category filter:
*every* incoming edge of `selfId` is recreated pointing into `newId`, with
category and all edge attributes copied verbatim. -/
def Vertex.replace_transferred_in (g : Graph) (selfId newId : Int) :
    List GEdge :=
  (g.edges.filter (fun e => e.inV == selfId)).map (fun e => { e with inV := newId })

/-- The edge list left after the drop step of the outgoing-edge loop of
`Vertex.replace`: the source's quirk is that `outE().drop()` runs in the
last iteration only when the *last* outgoing edge is not one of the
skipped categories (the iteration is otherwise cut short by `continue`),
and when it runs it drops every outgoing edge. -/
def Vertex.replace_edges_after_outdrop (g : Graph) (selfId : Int) :
    List GEdge :=
  let oList := g.edges.filter (fun e => e.outV == selfId)
  let outDrop := match oList.getLast? with
    | some e => !(replaceSkippedCategory e.category)
    | none => false
  if outDrop then g.edges.filter (fun e => !(e.outV == selfId)) else g.edges

/-- Embedding of `Vertex.replace` (the edge-rewiring half shared by every
kind's `replace`; the caller has already disabled `selfId` and persisted
`newId`).  Writes `replacement := newId` on `selfId`, recreates the
eligible outgoing edges and all incoming edges on `newId`, and drops the
originals.  The incoming list is read after the outgoing drop, as in the
source; the incoming drop runs whenever there is an incoming edge. -/
def Vertex.replace (g : Graph) (selfId newId : Int) : Graph :=
  let vs := g.vertices.map (fun v =>
    if v.vid == selfId then { v with replacement := newId } else v)
  let newOut := Vertex.replace_transferred_out g selfId newId
  let edges1 := Vertex.replace_edges_after_outdrop g selfId
  let g1 : Graph := { vertices := vs, edges := edges1 }
  let iList := edges1.filter (fun e => e.inV == selfId)
  let newIn := Vertex.replace_transferred_in g1 selfId newId
  let edges2 := if iList.isEmpty then edges1
                else edges1.filter (fun e => !(e.inV == selfId))
  { vertices := vs, edges := edges2 ++ newOut ++ newIn }

/-- Gremlin `TextP.containing`: substring containment. -/
def TextP.containing (sub s : String) : Bool :=
  decide (sub.toList <:+: s.toList)

/-- Is component vertex `cid` linked by a `rel_component_type` edge (either
direction) to a vertex named `t`?  Models
`__.both(RelationComponentType.category).has('name', t)`. -/
def componentHasTypeNamed (g : Graph) (cid : Int) (t : String) : Bool :=
  (g.bothE cid RelationComponentType.category).any (fun e =>
    g.vertexName (e.otherV cid) == t)

/-- Is component vertex `cid` linked by a `rel_version` edge (either
direction) to a vertex named `t`? -/
def componentHasVersionNamed (g : Graph) (cid : Int) (t : String) : Bool :=
  (g.bothE cid RelationVersion.category).any (fun e =>
    g.vertexName (e.otherV cid) == t)

/-- The `contents` list built for one filter tuple
`(name_substring, type_name, version_name)` in `Component.get_list` /
`Component.get_count`, with each gremlin predicate already evaluated
against the component vertex `cid` named `name`.  As in the source, the
version probe is appended only inside the `type_name != ""` branch. -/
def componentFilterContents (g : Graph) (cid : Int) (name : String)
    (f : String × String × String) : List Bool :=
  (if f.1 ≠ "" then [TextP.containing f.1 name] else []) ++
  (if f.2.1 ≠ "" then
    [componentHasTypeNamed g cid f.2.1] ++
    (if f.2.2 ≠ "" then [componentHasVersionNamed g cid f.2.2] else [])
   else [])

/-- The filter disjunction of `Component.get_list` / `Component.get_count`:
each tuple with a non-empty `contents` list contributes the conjunction of
its probes, and the `or_` step is applied only when at least one tuple
contributed — otherwise the traversal is left unconstrained. -/
def componentPassesFilters (g : Graph) (cid : Int) (name : String)
    (filters : List (String × String × String)) : Bool :=
  let ands := (filters.map (componentFilterContents g cid name)).filter
    (fun cs => !cs.isEmpty)
  ands.isEmpty || ands.any (fun cs => cs.all id)

/-- Embedding of `Component.get_count`: the number of active `component`
vertices passing the filter disjunction. -/
def Component.get_count (g : Graph)
    (filters : List (String × String × String)) : Nat :=
  (g.vertices.filter (fun v => v.active && v.category == Component.category &&
    componentPassesFilters g v.vid v.name filters)).length

/-- The string of the single largest Unicode scalar value,
`chr(0x10FFFF)` — the constant `Component.get_list` substitutes for a
missing version name. -/
def MAX_UNICODE_STR : String := String.mk [Char.ofNat 0x10FFFF]

/-- The version sort key of component vertex `cid`:
`coalesce(both(rel_version).values('name'), constant(chr(0x10FFFF)))` —
the name of the linked version vertex, or the largest Unicode character
when there is none. -/
def Graph.componentVersionKey (g : Graph) (cid : Int) : String :=
  match (g.bothE cid RelationVersion.category).map (fun e =>
      g.vertexName (e.otherV cid)) with
  | [] => MAX_UNICODE_STR
  | n :: _ => n

/-- The type sort key of component vertex `cid`:
`both(rel_component_type).values('name')` (a component always has exactly
one component-type edge; the empty string stands in when the data is
malformed). -/
def Graph.componentTypeKey (g : Graph) (cid : Int) : String :=
  match (g.bothE cid RelationComponentType.category).map (fun e =>
      g.vertexName (e.otherV cid)) with
  | [] => ""
  | n :: _ => n

/-- The closed `order_by` set of `Component.get_list`:
`{'name', 'type', 'version'}`. -/
inductive OrderBy where
  | name
  | ctype
  | version
deriving Repr, DecidableEq

/-- The `order_direction` set `{'asc', 'desc'}`. -/
inductive OrderDirection where
  | asc
  | desc
deriving Repr, DecidableEq

/-- Lexicographic three-way comparison of character lists (the string
order the database's `order().by` steps sort by). -/
def cmpCharList : List Char → List Char → Ordering
  | [], [] => .eq
  | [], _ :: _ => .lt
  | _ :: _, [] => .gt
  | a :: as, b :: bs =>
    if a < b then .lt else if b < a then .gt else cmpCharList as bs

/-- Three-way comparison of strings under the lexicographic order. -/
def cmpStr (a b : String) : Ordering :=
  cmpCharList a.toList b.toList

/-- Apply an order direction to a comparison result: `desc` reverses it. -/
def applyDir (d : OrderDirection) (o : Ordering) : Ordering :=
  match d with
  | .asc => o
  | .desc => o.swap

/-- The comparator realised by the three chained `order().by(...)` clauses
of `Component.get_list`, one branch per `order_by` value: the chosen key in
the requested direction, then `name` ascending, then the remaining
relation name ascending (for `order_by = 'name'`, the type name then the
version key, both ascending). -/
def Component.orderCmp (g : Graph) (ob : OrderBy) (d : OrderDirection)
    (a b : Int) : Ordering :=
  match ob with
  | .version =>
    (applyDir d (cmpStr (g.componentVersionKey a) (g.componentVersionKey b))).then
      ((cmpStr (g.vertexName a) (g.vertexName b)).then
        (cmpStr (g.componentTypeKey a) (g.componentTypeKey b)))
  | .ctype =>
    (applyDir d (cmpStr (g.componentTypeKey a) (g.componentTypeKey b))).then
      ((cmpStr (g.vertexName a) (g.vertexName b)).then
        (cmpStr (g.componentVersionKey a) (g.componentVersionKey b)))
  | .name =>
    (applyDir d (cmpStr (g.vertexName a) (g.vertexName b))).then
      ((cmpStr (g.componentTypeKey a) (g.componentTypeKey b)).then
        (cmpStr (g.componentVersionKey a) (g.componentVersionKey b)))

/-- Embedding of `Component.get_list`: the active `component` vertices
passing the filter disjunction, ordered by `Component.orderCmp`, windowed
to `range(lo, hi)`; returns the vertex IDs. -/
def Component.get_list (g : Graph) (lo hi : Nat) (ob : OrderBy)
    (d : OrderDirection) (filters : List (String × String × String)) :
    List Int :=
  let base := (g.vertices.filter (fun v =>
    v.active && v.category == Component.category &&
    componentPassesFilters g v.vid v.name filters)).map GVertex.vid
  let sorted := sortBy (fun a b => !(Component.orderCmp g ob d a b == .gt)) base
  (sorted.drop lo).take (hi - lo)

/-- Entries of `get_all_properties` as consumed by `as_dict`: the property
vertex's `values`, its type name, and the edge's start and end timestamps.
The traversal filters on `active` only — there is no time filter. -/
def Component.get_all_properties (g : Graph) (self : Component) :
    List (List String × String × Timestamp × Timestamp) :=
  ((g.bothE self.id RelationProperty.category).filter GEdge.active).map
    (fun e =>
      (g.vertexValues (e.otherV self.id),
       propertyVertexTypeName g (e.otherV self.id),
       e.startTimestamp, e.endTimestamp))

/-- Entries of `get_all_connections` as consumed by `as_dict`: the
counterpart component's name and the edge's start and end timestamps.
Filters on `active` only — no time filter. -/
def Component.get_all_connections (g : Graph) (self : Component) :
    List (String × Timestamp × Timestamp) :=
  ((g.bothE self.id RelationConnection.category).filter GEdge.active).map
    (fun e =>
      (g.vertexName (e.otherV self.id), e.startTimestamp, e.endTimestamp))

/-- Entries of `get_all_flags` as consumed by `as_dict`, represented by the
flag vertices' names (each flag's sub-dictionary also carries its own
interval and typing, not read by any claim).  Filters on `active` only. -/
def Component.get_all_flags (g : Graph) (self : Component) : List String :=
  ((g.bothE self.id RelationFlagComponent.category).filter GEdge.active).map
    (fun e => g.vertexName (e.otherV self.id))

/-- Names of the direct subcomponents (`inE(rel_subcomponent)` with
`active = true`). -/
def Component.get_all_subcomponents (g : Graph) (self : Component) :
    List String :=
  ((g.inE self.id RelationSubcomponent.category).filter GEdge.active).map
    (fun e => g.vertexName (e.otherV self.id))

/-- Names of the direct supercomponents (`outE(rel_subcomponent)` with
`active = true`). -/
def Component.get_all_supercomponents (g : Graph) (self : Component) :
    List String :=
  ((g.outE self.id RelationSubcomponent.category).filter GEdge.active).map
    (fun e => g.vertexName (e.otherV self.id))

/-- The dictionary returned by `Component.as_dict`. -/
structure ComponentDict where
  name : String
  type_name : String
  type_comments : String
  version_name : Option String
  time_added : Int
  properties : List (List String × String × Timestamp × Timestamp)
  connections : List (String × Timestamp × Timestamp)
  flags : List String
  subcomponents : List String
  supercomponents : List String
deriving Repr, DecidableEq

/-- Embedding of `Component.as_dict`.  The `time` parameter is received —
`None` or an instant — but, exactly as in the source, the body never reads
it: every temporal collection is assembled by the unfiltered
`get_all_properties` / `get_all_connections` / `get_all_flags` /
`get_all_subcomponents` / `get_all_supercomponents`. -/
def Component.as_dict (g : Graph) (self : Component) (_time : Option Int) :
    ComponentDict :=
  { name := self.name
  , type_name := self.type.name
  , type_comments := self.type.comments
  , version_name := self.version.map ComponentVersion.name
  , time_added := self.time_added
  , properties := Component.get_all_properties g self
  , connections := Component.get_all_connections g self
  , flags := Component.get_all_flags g self
  , subcomponents := Component.get_all_subcomponents g self
  , supercomponents := Component.get_all_supercomponents g self }

/-- Filter semantics asserted by the specification sentence behind claim
C7 (for comparison with `componentPassesFilters`): a disjunction over the
tuples of the conjunction of the constraints given by each tuple's
non-empty positions, each of the three positions constraining exactly when
it is non-empty. -/
def specFilterMatches (g : Graph) (cid : Int) (name : String)
    (filters : List (String × String × String)) : Bool :=
  filters.isEmpty || filters.any (fun f =>
    (f.1 == "" || TextP.containing f.1 name) &&
    (f.2.1 == "" || componentHasTypeNamed g cid f.2.1) &&
    (f.2.2 == "" || componentHasVersionNamed g cid f.2.2))

/-- Amended filter semantics (for comparison with
`componentPassesFilters`): tuples whose name and type positions are both
empty contribute no disjunct; the version position constrains only when
the type position is also non-empty. -/
def amendedFilterMatches (g : Graph) (cid : Int) (name : String)
    (filters : List (String × String × String)) : Bool :=
  let eff := filters.filter (fun f => f.1 != "" || f.2.1 != "")
  eff.isEmpty || eff.any (fun f =>
    (f.1 == "" || TextP.containing f.1 name) &&
    (f.2.1 == "" || componentHasTypeNamed g cid f.2.1) &&
    (!(f.2.1 != "" && f.2.2 != "") || componentHasVersionNamed g cid f.2.2))

/-- The chosen primary sort key of `Component.get_list` for each
`order_by` value. -/
def Graph.componentOrderKey (g : Graph) (ob : OrderBy) (cid : Int) : String :=
  match ob with
  | .name => g.vertexName cid
  | .ctype => g.componentTypeKey cid
  | .version => g.componentVersionKey cid

/-- The relation-name key the comparator falls back to after the primary
key and the name: the type name when ordering by version, the version key
when ordering by type, and (first) the type name when ordering by name. -/
def remainingRelationKey (g : Graph) (ob : OrderBy) (cid : Int) : String :=
  match ob with
  | .name => g.componentTypeKey cid
  | .ctype => g.componentVersionKey cid
  | .version => g.componentTypeKey cid

/-- Concrete component type object used by the claim instances. -/
def ctypeObjX : ComponentType := { name := "ctype", comments := "", id := 100 }

/-- Concrete component object `A` (vertex 1). -/
def compObjA : Component :=
  { name := "A", type := ctypeObjX, version := none, time_added := 0, id := 1 }

/-- Concrete component object `B` (vertex 2). -/
def compObjB : Component :=
  { name := "B", type := ctypeObjX, version := none, time_added := 0, id := 2 }

/-- Component vertex `A` as stored. -/
def vtxA : GVertex :=
  { vid := 1, category := "component", active := true, name := "A",
    values := [], time_added := 0, time_disabled := -1, replacement := 0 }

/-- Component vertex `B` as stored. -/
def vtxB : GVertex :=
  { vid := 2, category := "component", active := true, name := "B",
    values := [], time_added := 0, time_disabled := -1, replacement := 0 }

/-- An active open-ended `rel_connection` edge between `A` and `B`
starting at 1000. -/
def connEdgeAB : GEdge :=
  { eid := 10, category := "rel_connection", outV := 2, inV := 1,
    active := true,
    ts := some { start_time := 1000, start_uid := "u",
                 start_edit_time := 1000, start_comments := "",
                 end_time := EXISTING_RELATION_END_PLACEHOLDER, end_uid := "",
                 end_edit_time := EXISTING_RELATION_END_EDIT_PLACEHOLDER,
                 end_comments := "" } }

/-- State for the connect half of claim C1: `A` and `B` with a future
active connection starting at 1000. -/
def gC1conn : Graph := { vertices := [vtxA, vtxB], edges := [connEdgeAB] }

/-- Concrete property type object (vertex 5). -/
def ptypeObjX : PropertyType :=
  { name := "pt", units := "", allowed_regex := "x|y", n_values := 1,
    comments := "", id := 5 }

/-- Property type vertex as stored. -/
def vtxPT : GVertex :=
  { vid := 5, category := "property_type", active := true, name := "pt",
    values := [], time_added := 0, time_disabled := -1, replacement := 0 }

/-- Property vertex with values `["x"]` as stored (vertex 3). -/
def vtxPropX : GVertex :=
  { vid := 3, category := "property", active := true, name := "",
    values := ["x"], time_added := 0, time_disabled := -1, replacement := 0 }

/-- The `rel_property_type` edge linking property vertex 3 to its type. -/
def propTypeEdge : GEdge :=
  { eid := 12, category := "rel_property_type", outV := 3, inV := 5,
    active := true, ts := none }

/-- An active open-ended `rel_property` edge on `A` starting at 1000. -/
def propEdgeFuture : GEdge :=
  { eid := 11, category := "rel_property", outV := 1, inV := 3,
    active := true,
    ts := some { start_time := 1000, start_uid := "u",
                 start_edit_time := 1000, start_comments := "",
                 end_time := EXISTING_RELATION_END_PLACEHOLDER, end_uid := "",
                 end_edit_time := EXISTING_RELATION_END_EDIT_PLACEHOLDER,
                 end_comments := "" } }

/-- State for the set_property half of claim C1: `A` with a future active
property of type `pt` starting at 1000. -/
def gC1prop : Graph :=
  { vertices := [vtxA, vtxPT, vtxPropX], edges := [propEdgeFuture, propTypeEdge] }

/-- A property object with values `["y"]` of type `pt`, not yet persisted. -/
def propObjY : Property :=
  { values := ["y"], type := ptypeObjX, id := VIRTUAL_ID_PLACEHOLDER }

/-- A property object with values `["x"]` of type `pt`, not yet persisted. -/
def propObjX : Property :=
  { values := ["x"], type := ptypeObjX, id := VIRTUAL_ID_PLACEHOLDER }

/-- An active `rel_property` edge on `A` containing time 50 (interval
`[0, open)`). -/
def propEdgeCurrent : GEdge :=
  { eid := 11, category := "rel_property", outV := 1, inV := 3,
    active := true,
    ts := some { start_time := 0, start_uid := "u", start_edit_time := 0,
                 start_comments := "",
                 end_time := EXISTING_RELATION_END_PLACEHOLDER, end_uid := "",
                 end_edit_time := EXISTING_RELATION_END_EDIT_PLACEHOLDER,
                 end_comments := "" } }

/-- State for the claim C3 witness: `A` has an active property `["x"]` of
type `pt` whose interval contains time 50. -/
def gC3 : Graph :=
  { vertices := [vtxA, vtxPT, vtxPropX], edges := [propEdgeCurrent, propTypeEdge] }

/-- An active `rel_subcomponent` edge recording `B` as a subcomponent of
`A` (stored out of the child into the parent, as `subcomponent_connect`
writes it). -/
def subEdgeBA : GEdge :=
  { eid := 9, category := "rel_subcomponent", outV := 2, inV := 1,
    active := true, ts := none }

/-- State for claim C4: `B` is already a subcomponent of `A` in the same
direction that `A.subcomponent_connect(B)` would create. -/
def gC4 : Graph := { vertices := [vtxA, vtxB], edges := [subEdgeBA] }

/-- An active `rel_property` edge on `A` over the closed interval
`[0, 100)` whose end was recorded at edit time 60. -/
def propEdgeClosed : GEdge :=
  { eid := 11, category := "rel_property", outV := 1, inV := 3,
    active := true,
    ts := some { start_time := 0, start_uid := "u", start_edit_time := 0,
                 start_comments := "",
                 end_time := 100, end_uid := "u", end_edit_time := 60,
                 end_comments := "" } }

/-- State for claim C5: `A` has exactly one property, over `[0, 100)`. -/
def gC5 : Graph :=
  { vertices := [vtxA, vtxPT, vtxPropX], edges := [propEdgeClosed, propTypeEdge] }

/-- A disabled `user_group` vertex named `ops`. -/
def vtxUGdisabled : GVertex :=
  { vid := 7, category := "user_group", active := false, name := "ops",
    values := [], time_added := 0, time_disabled := 80, replacement := 0 }

/-- State for claim C6: the only `user_group` vertex named `ops` is
disabled. -/
def gC6 : Graph := { vertices := [vtxUGdisabled], edges := [] }

/-- A not-yet-persisted user group object named `ops`. -/
def ugObjOps : UserGroup :=
  { name := "ops", comments := "", id := VIRTUAL_ID_PLACEHOLDER }

/-- Component type vertex named `t` (vertex 20). -/
def vtxCT : GVertex :=
  { vid := 20, category := "component_type", active := true, name := "t",
    values := [], time_added := 0, time_disabled := -1, replacement := 0 }

/-- Component version vertex named `v2` (vertex 21). -/
def vtxCV : GVertex :=
  { vid := 21, category := "component_version", active := true, name := "v2",
    values := [], time_added := 0, time_disabled := -1, replacement := 0 }

/-- The `rel_component_type` edge of component 1. -/
def ctEdge : GEdge :=
  { eid := 30, category := "rel_component_type", outV := 1, inV := 20,
    active := true, ts := none }

/-- The `rel_version` edge of component 1. -/
def cvEdge : GEdge :=
  { eid := 31, category := "rel_version", outV := 1, inV := 21,
    active := true, ts := none }

/-- State for claim C7: one component of type `t` and version `v2`. -/
def gC7 : Graph :=
  { vertices := [vtxA, vtxCT, vtxCV], edges := [ctEdge, cvEdge] }

/-- An incoming structural `rel_component_type` edge: component 3 points
at the component type vertex 1. -/
def ctEdgeIntoOld : GEdge :=
  { eid := 40, category := "rel_component_type", outV := 3, inV := 1,
    active := true, ts := none }

/-- State for claim C2: component type vertex 1 is being replaced by
vertex 2; vertex 1 has an incoming structural `rel_component_type` edge
from component 3. -/
def gC2 : Graph :=
  { vertices :=
      [{ vid := 1, category := "component_type", active := false, name := "T",
         values := [], time_added := 0, time_disabled := 90, replacement := 0 },
       { vid := 2, category := "component_type", active := true, name := "T",
         values := [], time_added := 90, time_disabled := -1, replacement := 0 },
       { vid := 3, category := "component", active := true, name := "A",
         values := [], time_added := 0, time_disabled := -1, replacement := 0 }],
    edges := [ctEdgeIntoOld] }

/-- A second component object that shares the name `A` with `compObjA` but
denotes a different graph vertex (id 2). -/
def compObjA2 : Component :=
  { name := "A", type := ctypeObjX, version := none, time_added := 0, id := 2 }

/-- The empty graph state. -/
def gEmpty : Graph := { vertices := [], edges := [] }

/-- The view `Property.from_id` produces for property vertex 3 in `gC3`. -/
def propViewX : PropView := { id := 3, values := ["x"], type_name := "pt" }

/-- State for claim C8's witness: two components, 1 with a version named
`v1` and 2 without any version. -/
def gC8 : Graph :=
  { vertices :=
      [vtxA, vtxB, vtxCT,
       { vid := 21, category := "component_version", active := true,
         name := "v1", values := [], time_added := 0, time_disabled := -1,
         replacement := 0 }],
    edges :=
      [{ eid := 30, category := "rel_component_type", outV := 1, inV := 20,
         active := true, ts := none },
       { eid := 32, category := "rel_component_type", outV := 2, inV := 20,
         active := true, ts := none },
       { eid := 31, category := "rel_version", outV := 1, inV := 21,
         active := true, ts := none }] }

/-- A `get_property` call that returns a result (instead of raising) has
passed the component's `added_to_db` check. -/
theorem Component.get_property_ok_added {g : Graph} {self : Component}
    {type : PropertyType} {time : Int} {r : Option PropView}
    (h : Component.get_property g self type time = .ok r) :
    Component.added_to_db g self = true := by
  by_cases hA : Component.added_to_db g self = true
  · exact hA
  · rw [Bool.not_eq_true] at hA
    rw [Component.get_property, hA] at h
    simp at h

/-- C1: the claim states that with `force = true`, an open `end_time` and a
start before an existing future active edge of the same type (pair), both
`connect` and `set_property` succeed and cap the new edge's end time at the
earliest future edge's start time (here 1000).  Evaluating the code at
exactly such inputs shows both operations instead abort with an
`AttributeError`: they read the attribute `start_time` off the first future
`RelationConnection` / `RelationProperty` object, which carries only a
`start` timestamp. -/
theorem C1_force_cap_attribute_error :
    Component.connect gC1conn compObjA compObjB 500 "u"
      EXISTING_RELATION_END_PLACEHOLDER 900 "" true
      = (gC1conn, .error (.attributeError "start_time")) ∧
    Component.set_property (fun _ _ => true) gC1prop compObjA propObjY 500 "u"
      EXISTING_RELATION_END_PLACEHOLDER 900 "" true
      = (gC1prop, .error (.attributeError "start_time")) :=
  ⟨rfl, rfl⟩

/-- C3: for every persisted component, `set_property` with a property whose
values equal the values of the property of the same type already active at
the given time raises `PropertyIsSame` and leaves the store unchanged — the
returned state is the input state, so no Property vertex, no `rel_property`
edge and no end-timestamp update is made. -/
theorem C3_set_property_same_values_noop
    (fullmatch : String → String → Bool) (g : Graph) (self : Component)
    (property : Property) (time : Int) (uid : String)
    (end_time edit_time : Int) (comments : String) (force_property : Bool)
    (current : PropView)
    (hget : Component.get_property g self property.type time = .ok (some current))
    (hvals : current.values = property.values) :
    Component.set_property fullmatch g self property time uid end_time
      edit_time comments force_property = (g, .error .propertyIsSame) := by
  have hA := Component.get_property_ok_added hget
  rw [Component.set_property, hA, hget]
  simp [hvals]

/-- C3 witness: on the concrete state `gC3` the active property of type
`pt` at time 50 has values `["x"]`, and setting `["x"]` again raises
`PropertyIsSame` with the state unchanged. -/
theorem C3_set_property_same_values_noop_witness :
    Component.set_property (fun _ _ => true) gC3 compObjA propObjX 50 "u"
      EXISTING_RELATION_END_PLACEHOLDER 60 "" false
      = (gC3, .error .propertyIsSame) :=
  C3_set_property_same_values_noop (fun _ _ => true) gC3 compObjA propObjX
    50 "u" EXISTING_RELATION_END_PLACEHOLDER 60 "" false propViewX rfl rfl

/-- C5: the claim states `as_dict` with a non-`None` time returns only the
properties, connections and flags whose interval contains that time.  The
code never reads the `time` argument: `as_dict` at any time equals
`as_dict` at `None`, and on `gC5` — whose only property lives on `[0, 100)`
— the snapshot at time 200 still contains that property. -/
theorem C5_as_dict_ignores_time :
    (∀ (g : Graph) (self : Component) (t : Option Int),
      Component.as_dict g self t = Component.as_dict g self none) ∧
    (Component.as_dict gC5 compObjA (some 200)).properties
      = [(["x"], "pt", ⟨0, "u", 0, ""⟩, ⟨100, "u", 60, ""⟩)] :=
  ⟨fun _ _ _ => rfl, by decide⟩

/-- C6 counterexample: `gC6` holds a single *disabled* `user_group` vertex
named `ops`.  For the virtual user-group object of that name the claim's
predicate is false — the ID is the virtual placeholder and the
active-filtered uniqueness query has zero matches — yet `added_to_db`
returns true, because `UserGroup.added_to_db` applies no `active` filter. -/
theorem C6_counterexample :
    UserGroup.added_to_db gC6 ugObjOps = true ∧
    ugObjOps.id = VIRTUAL_ID_PLACEHOLDER ∧
    (gC6.vertices.filter (fun v => v.category == UserGroup.category &&
      v.name == ugObjOps.name && v.active)).length = 0 := by
  decide

/-- C6 (amended): `added_to_db` returns true iff the ID is not the virtual
placeholder or the kind's uniqueness query matches; the query is filtered
by `active = true` (with at-least-one-match semantics) for `ComponentType`,
`Component` and `PropertyType`, but `UserGroup`'s query has *no* `active`
filter and demands exactly one match. -/
theorem C6_added_to_db_query_semantics (g : Graph) (ct : ComponentType)
    (c : Component) (pt : PropertyType) (ug : UserGroup) :
    (ComponentType.added_to_db g ct = true ↔
      ct.id ≠ VIRTUAL_ID_PLACEHOLDER ∨
      ∃ v ∈ g.vertices, v.category = ComponentType.category ∧
        v.name = ct.name ∧ v.active = true) ∧
    (Component.added_to_db g c = true ↔
      c.id ≠ VIRTUAL_ID_PLACEHOLDER ∨
      ∃ v ∈ g.vertices, v.category = Component.category ∧
        v.name = c.name ∧ v.active = true) ∧
    (PropertyType.added_to_db g pt = true ↔
      pt.id ≠ VIRTUAL_ID_PLACEHOLDER ∨
      ∃ v ∈ g.vertices, v.category = PropertyType.category ∧
        v.name = pt.name ∧ v.active = true) ∧
    (UserGroup.added_to_db g ug = true ↔
      ug.id ≠ VIRTUAL_ID_PLACEHOLDER ∨
      g.vertices.countP (fun v => v.category == UserGroup.category &&
        v.name == ug.name) = 1) := by
  refine ⟨?_, ?_, ?_, ?_⟩ <;>
    simp [ComponentType.added_to_db, Component.added_to_db,
      PropertyType.added_to_db, UserGroup.added_to_db,
      List.length_pos, List.filter_eq_nil_iff, List.countP_eq_length_filter,
      bne_iff_ne, not_forall]

/-- The `contents` list for a filter tuple is empty exactly when both the
name and the type positions are empty (the version position alone never
contributes, being nested under the type test). -/
theorem componentFilterContents_isEmpty (g : Graph) (cid : Int)
    (name : String) (f : String × String × String) :
    (componentFilterContents g cid name f).isEmpty
      = !(f.1 != "" || f.2.1 != "") := by
  rcases f with ⟨f1, f2, f3⟩
  by_cases h1 : f1 = "" <;> by_cases h2 : f2 = "" <;> by_cases h3 : f3 = "" <;>
    simp [componentFilterContents, h1, h2, h3]

/-- Evaluating the conjunction of a tuple's `contents` equals the
three-way conjunction in which the version probe applies only when both
the type and version positions are non-empty. -/
theorem componentFilterContents_all (g : Graph) (cid : Int) (name : String)
    (f : String × String × String) :
    (componentFilterContents g cid name f).all id
      = ((f.1 == "" || TextP.containing f.1 name) &&
         (f.2.1 == "" || componentHasTypeNamed g cid f.2.1) &&
         (!(f.2.1 != "" && f.2.2 != "") ||
           componentHasVersionNamed g cid f.2.2)) := by
  rcases f with ⟨f1, f2, f3⟩
  by_cases h1 : f1 = "" <;> by_cases h2 : f2 = "" <;> by_cases h3 : f3 = "" <;>
    simp [componentFilterContents, h1, h2, h3, Bool.beq_eq_decide_eq, bne,
      Bool.and_assoc]

/-- The per-tuple `and_` steps of the filter disjunction match the
effective-tuple list: emptiness agrees. -/
theorem componentFilterAnds_isEmpty (g : Graph) (cid : Int) (name : String)
    (fs : List (String × String × String)) :
    ((fs.map (componentFilterContents g cid name)).filter
      (fun cs => !cs.isEmpty)).isEmpty
    = (fs.filter (fun f => f.1 != "" || f.2.1 != "")).isEmpty := by
  induction fs with
  | nil => rfl
  | cons f fs ih =>
    simp only [List.map_cons, List.filter_cons]
    rw [componentFilterContents_isEmpty]
    cases hp : (f.1 != "" || f.2.1 != "") with
    | false => simpa using ih
    | true => simp

/-- The per-tuple `and_` steps of the filter disjunction match the
effective-tuple list: the disjunction agrees with the amended per-tuple
conjunction. -/
theorem componentFilterAnds_any (g : Graph) (cid : Int) (name : String)
    (fs : List (String × String × String)) :
    ((fs.map (componentFilterContents g cid name)).filter
      (fun cs => !cs.isEmpty)).any (fun cs => cs.all id)
    = (fs.filter (fun f => f.1 != "" || f.2.1 != "")).any (fun f =>
        (f.1 == "" || TextP.containing f.1 name) &&
        (f.2.1 == "" || componentHasTypeNamed g cid f.2.1) &&
        (!(f.2.1 != "" && f.2.2 != "") ||
          componentHasVersionNamed g cid f.2.2)) := by
  induction fs with
  | nil => rfl
  | cons f fs ih =>
    simp only [List.map_cons, List.filter_cons]
    rw [componentFilterContents_isEmpty]
    cases hp : (f.1 != "" || f.2.1 != "") with
    | false => simpa using ih
    | true => simp [ih, componentFilterContents_all]

/-- The filter disjunction built by `get_list` / `get_count` agrees with
the amended per-tuple semantics. -/
theorem componentPassesFilters_eq_amended (g : Graph) (cid : Int)
    (name : String) (filters : List (String × String × String)) :
    componentPassesFilters g cid name filters
      = amendedFilterMatches g cid name filters := by
  simp only [componentPassesFilters, amendedFilterMatches]
  rw [componentFilterAnds_isEmpty, componentFilterAnds_any]

/-- C7 counterexample: on `gC7` — one component named `A` of type `t` and
version `v2` — the filter list `[("", "", "v1")]` matches the component
under the code's semantics (the tuple contributes no constraint at all),
while the claimed semantics (each position constrains exactly when
non-empty, so the tuple constrains by version `v1`) rejects it. -/
theorem C7_counterexample :
    componentPassesFilters gC7 1 "A" [("", "", "v1")] = true ∧
    specFilterMatches gC7 1 "A" [("", "", "v1")] = false := by
  decide

/-- C7 (amended): the result set of `get_list` / `get_count` is the
disjunction over the filter tuples of the conjunction of their effective
constraints, where the name and type positions constrain exactly when
non-empty, the version position constrains only when the type position is
*also* non-empty, and tuples with empty name and type positions contribute
no disjunct at all (so a filter list made only of such tuples matches
everything).  `get_count` counts the active components matching exactly
these semantics. -/
theorem C7_filter_semantics (g : Graph) (cid : Int) (name : String)
    (filters : List (String × String × String)) :
    componentPassesFilters g cid name filters
      = amendedFilterMatches g cid name filters ∧
    Component.get_count g filters
      = (g.vertices.filter (fun v => v.active &&
          v.category == Component.category &&
          amendedFilterMatches g v.vid v.name filters)).length := by
  refine ⟨componentPassesFilters_eq_amended g cid name filters, ?_⟩
  unfold Component.get_count
  congr 1
  apply List.filter_congr
  intro v _
  rw [componentPassesFilters_eq_amended]

/-- The `bothE` + `otherV` filter of `get_subcomponent` is symmetric in
the two endpoints: reaching the edge from `x` with the far end at `y`
accepts exactly the edges reached from `y` with the far end at `x`
(for distinct `x` and `y`). -/
theorem subcomponentEdgeFilterSymm (e : GEdge) (x y : Int) (hxy : x ≠ y) :
    ((e.active && (e.otherV x == y)) &&
      (e.category == RelationSubcomponent.category && e.touches x))
    = ((e.active && (e.otherV y == x)) &&
      (e.category == RelationSubcomponent.category && e.touches y)) := by
  simp only [GEdge.touches, GEdge.otherV, Bool.beq_eq_decide_eq]
  by_cases h1 : e.outV = x <;> by_cases h2 : e.inV = x <;>
    by_cases h3 : e.outV = y <;> by_cases h4 : e.inV = y <;>
    simp_all

/-- The two `get_subcomponent` probes of `subcomponent_connect` are the
same query: for distinct persisted components the result is identical in
both argument orders. -/
theorem Component.get_subcomponent_symm (g : Graph) (a b : Component)
    (ha : Component.added_to_db g a = true)
    (hb : Component.added_to_db g b = true) (hid : a.id ≠ b.id) :
    Component.get_subcomponent g a b = Component.get_subcomponent g b a := by
  rw [Component.get_subcomponent, Component.get_subcomponent, ha, hb]
  simp only [Bool.not_true, Bool.false_eq_true, if_false]
  have hlists : (g.bothE a.id RelationSubcomponent.category).filter (fun e =>
      e.active && (e.otherV a.id == b.id))
      = (g.bothE b.id RelationSubcomponent.category).filter (fun e =>
      e.active && (e.otherV b.id == a.id)) := by
    rw [Graph.bothE, Graph.bothE, List.filter_filter, List.filter_filter]
    apply List.filter_congr
    intro e _
    exact subcomponentEdgeFilterSymm e a.id b.id hid
  rw [hlists]

/-- C4 counterexample: in `gC4` the active `rel_subcomponent` edge records
`B` as a subcomponent of `A`, in exactly the direction
`A.subcomponent_connect(B)` would create — the claim says this duplicate
raises `AlreadySubcomponent` — yet the call raises
`IsSubcomponentOfOther`. -/
theorem C4_counterexample :
    Component.subcomponent_connect gC4 compObjA compObjB
      = (gC4, .error .isSubcomponentOfOther) ∧
    Component.subcomponent_connect gC4 compObjA compObjB
      ≠ (gC4, .error .alreadySubcomponent) := by
  refine ⟨rfl, ?_⟩
  intro h
  rw [show Component.subcomponent_connect gC4 compObjA compObjB
      = (gC4, .error .isSubcomponentOfOther) from rfl] at h
  simp at h

/-- C4 (amended): because `get_subcomponent` matches the edge in either
direction (`bothE`), the two probes of `subcomponent_connect` coincide,
and whenever an active `rel_subcomponent` edge exists between the two
distinct components — in the same or the inverse direction — the inverse
probe is non-empty and the call raises `IsSubcomponentOfOther`; the
`AlreadySubcomponent` branch is unreachable. -/
theorem C4_subcomponent_duplicate_error (g : Graph) (a b : Component)
    (ha : Component.added_to_db g a = true)
    (hb : Component.added_to_db g b = true) (hid : a.id ≠ b.id)
    (hname : a.name ≠ b.name) :
    Component.get_subcomponent g a b = Component.get_subcomponent g b a ∧
    (∀ e, Component.get_subcomponent g a b = .ok (some e) →
      Component.subcomponent_connect g a b
        = (g, .error .isSubcomponentOfOther)) := by
  refine ⟨Component.get_subcomponent_symm g a b ha hb hid, ?_⟩
  intro e hsome
  have hsymm := Component.get_subcomponent_symm g a b ha hb hid
  rw [Component.subcomponent_connect, ha, hb]
  simp only [Bool.not_true, Bool.false_eq_true, if_false]
  rw [if_neg (by simpa using hname)]
  rw [hsome, ← hsymm, hsome]
  rfl

/-- C4 witness: on `gC4` (active same-direction edge recording `B` as a
subcomponent of `A`) the amended theorem applies and yields
`IsSubcomponentOfOther`. -/
theorem C4_subcomponent_duplicate_error_witness :
    Component.subcomponent_connect gC4 compObjA compObjB
      = (gC4, .error .isSubcomponentOfOther) :=
  (C4_subcomponent_duplicate_error gC4 compObjA compObjB (by decide)
    (by decide) (by decide) (by decide)).2 subEdgeBA rfl

/-- C2 counterexample: replacing component-type vertex 1 by vertex 2 in
`gC2` recreates the *incoming* structural `rel_component_type` edge on the
successor — the claim says structural typing edges are never transferred
regardless of edge direction — and that category is indeed on the
outgoing-loop skip list. -/
theorem C2_counterexample :
    replaceSkippedCategory RelationComponentType.category = true ∧
    ((Vertex.replace gC2 1 2).edges.filter (fun e =>
      e.category == RelationComponentType.category && e.inV == 2 &&
      e.outV == 3 && e.active)).length = 1 := by
  decide

/-- C2 (amended): `Vertex.replace` recreates, with category and all edge
attributes copied verbatim, exactly the *outgoing* edges whose category is
not among the six structural typing categories, and *all* incoming edges,
the six structural typing categories included; both recreated families end
up in the replacing graph's edge list. -/
theorem C2_replace_edge_eligibility (g : Graph) (s n : Int) (e : GEdge)
    (he : e ∈ g.edges)
    (hnl : ∀ e0 ∈ g.edges, e0.inV = s → e0.outV ≠ s) :
    ((e.outV = s ∧ replaceSkippedCategory e.category = false) →
      { e with outV := n } ∈ Vertex.replace_transferred_out g s n) ∧
    (∀ e', e' ∈ Vertex.replace_transferred_out g s n →
      ∃ e0 ∈ g.edges, e0.outV = s ∧ replaceSkippedCategory e0.category = false ∧
        e' = { e0 with outV := n }) ∧
    (e.inV = s → { e with inV := n } ∈ Vertex.replace_transferred_in g s n) ∧
    (∀ e', e' ∈ Vertex.replace_transferred_in g s n →
      ∃ e0 ∈ g.edges, e0.inV = s ∧ e' = { e0 with inV := n }) ∧
    (∀ e', e' ∈ Vertex.replace_transferred_out g s n →
      e' ∈ (Vertex.replace g s n).edges) ∧
    (∀ e', e' ∈ Vertex.replace_transferred_in g s n →
      e' ∈ (Vertex.replace g s n).edges) := by
  refine ⟨?_, ?_, ?_, ?_, ?_, ?_⟩
  · rintro ⟨hout, hskip⟩
    simp only [Vertex.replace_transferred_out, List.mem_map, List.mem_filter]
    exact ⟨e, ⟨⟨he, by simp [hout]⟩, by simp [hskip]⟩, rfl⟩
  · intro e' he'
    simp only [Vertex.replace_transferred_out, List.mem_map,
      List.mem_filter] at he'
    obtain ⟨e0, ⟨⟨h0, hout⟩, hskip⟩, hmk⟩ := he'
    exact ⟨e0, h0, by simpa using hout, by simpa using hskip, hmk.symm⟩
  · intro hin
    simp only [Vertex.replace_transferred_in, List.mem_map, List.mem_filter]
    exact ⟨e, ⟨he, by simp [hin]⟩, rfl⟩
  · intro e' he'
    simp only [Vertex.replace_transferred_in, List.mem_map,
      List.mem_filter] at he'
    obtain ⟨e0, ⟨h0, hin⟩, hmk⟩ := he'
    exact ⟨e0, h0, by simpa using hin, hmk.symm⟩
  · intro e' he'
    simp only [Vertex.replace, List.mem_append]
    exact Or.inl (Or.inr he')
  · intro e' he'
    simp only [Vertex.replace, List.mem_append]
    right
    -- the incoming transfer list of `Vertex.replace` is computed on the
    -- post-outdrop edge list, which agrees with the input graph's on
    -- incoming edges of `s` because `s` has no self-loop
    have key : Vertex.replace_transferred_in
        ({ vertices := g.vertices.map (fun v =>
             if v.vid == s then { v with replacement := n } else v),
           edges := Vertex.replace_edges_after_outdrop g s } : Graph) s n
        = Vertex.replace_transferred_in g s n := by
      unfold Vertex.replace_transferred_in Vertex.replace_edges_after_outdrop
      simp only []
      split
      · rw [List.filter_filter]
        congr 1
        apply List.filter_congr
        intro e0 he0
        by_cases hin : e0.inV = s
        · simp [hin, hnl e0 he0 hin, Bool.beq_eq_decide_eq]
        · simp [hin, Bool.beq_eq_decide_eq]
      · rfl
    rw [key]
    exact he'

/-- C2 witness: in `gC2` the incoming structural edge from component 3 is
transferred onto the successor vertex 2. -/
theorem C2_replace_edge_eligibility_witness :
    { ctEdgeIntoOld with inV := 2 } ∈ Vertex.replace_transferred_in gC2 1 2 ∧
    { ctEdgeIntoOld with inV := 2 } ∈ (Vertex.replace gC2 1 2).edges :=
  ⟨(C2_replace_edge_eligibility gC2 1 2 ctEdgeIntoOld (by decide)
      (by decide)).2.2.1 rfl,
   (C2_replace_edge_eligibility gC2 1 2 ctEdgeIntoOld (by decide)
      (by decide)).2.2.2.2.2
     { ctEdgeIntoOld with inV := 2 }
     ((C2_replace_edge_eligibility gC2 1 2 ctEdgeIntoOld (by decide)
        (by decide)).2.2.1 rfl)⟩

/-- `cmpCharList` returns `eq` exactly on equal lists. -/
theorem cmpCharList_eq_iff : ∀ a b : List Char, cmpCharList a b = .eq ↔ a = b
  | [], [] => by simp [cmpCharList]
  | [], _ :: _ => by simp [cmpCharList]
  | _ :: _, [] => by simp [cmpCharList]
  | a :: as, b :: bs => by
    simp only [cmpCharList]
    by_cases h1 : a < b
    · simp [h1, (ne_of_lt h1)]
    · by_cases h2 : b < a
      · simp [h1, h2, (ne_of_lt h2).symm]
      · have hab : a = b := le_antisymm (not_lt.mp h2) (not_lt.mp h1)
        simp [h1, h2, hab, cmpCharList_eq_iff as bs]

/-- Swapping the arguments of `cmpCharList` swaps the result. -/
theorem cmpCharList_swap : ∀ a b : List Char,
    cmpCharList b a = (cmpCharList a b).swap
  | [], [] => rfl
  | [], _ :: _ => rfl
  | _ :: _, [] => rfl
  | a :: as, b :: bs => by
    simp only [cmpCharList]
    by_cases h1 : a < b
    · simp [h1, lt_asymm h1, Ordering.swap]
    · by_cases h2 : b < a
      · simp [h1, h2, Ordering.swap]
      · simp [h1, h2, cmpCharList_swap as bs]

/-- `cmpStr` returns `eq` exactly on equal strings. -/
theorem cmpStr_eq_iff (a b : String) : cmpStr a b = .eq ↔ a = b := by
  rw [cmpStr, cmpCharList_eq_iff]
  constructor
  · intro h
    cases a with
    | mk da =>
      cases b with
      | mk db =>
        have hd : da = db := by simpa [String.toList] using h
        rw [hd]
  · intro h
    rw [h]

/-- Swapping the arguments of `cmpStr` swaps the result. -/
theorem cmpStr_swap (a b : String) : cmpStr b a = (cmpStr a b).swap :=
  cmpCharList_swap a.toList b.toList

/-- A chained comparison is `eq` exactly when both links are. -/
theorem ordering_then_eq_eq (o p : Ordering) :
    o.then p = .eq ↔ o = .eq ∧ p = .eq := by
  cases o <;> simp [Ordering.then]

/-- A decided comparison short-circuits the chain. -/
theorem ordering_then_of_ne {o : Ordering} (h : o ≠ .eq) (p : Ordering) :
    o.then p = o := by
  cases o <;> simp_all [Ordering.then]

/-- Direction application preserves `eq`-ness. -/
theorem applyDir_eq_eq (d : OrderDirection) (o : Ordering) :
    applyDir d o = .eq ↔ o = .eq := by
  cases d <;> cases o <;> simp [applyDir, Ordering.swap]

/-- Direction application fixes `eq`. -/
theorem applyDir_eq (d : OrderDirection) : applyDir d .eq = .eq := by
  cases d <;> rfl

/-- C8: the `get_list` comparator orders totally (components with distinct
names never compare `eq`); the chosen key in the requested direction is
primary; `name` ascending breaks primary ties; the remaining relation name
(ascending) breaks the rest (for ordering by name, the type then the
version key); a component with no version edge gets the version key
`chr(0x10FFFF)`, the maximum Unicode code point, and therefore sorts after
every component whose version name precedes that character when ordering
by version ascending. -/
theorem C8_order_total_keys (g : Graph) (ob : OrderBy) (d : OrderDirection)
    (a b : Int) :
    (g.vertexName a ≠ g.vertexName b → Component.orderCmp g ob d a b ≠ .eq) ∧
    (cmpStr (g.componentOrderKey ob a) (g.componentOrderKey ob b) ≠ .eq →
      Component.orderCmp g ob d a b
        = applyDir d (cmpStr (g.componentOrderKey ob a)
            (g.componentOrderKey ob b))) ∧
    (g.componentOrderKey ob a = g.componentOrderKey ob b →
      g.vertexName a ≠ g.vertexName b →
      Component.orderCmp g ob d a b
        = cmpStr (g.vertexName a) (g.vertexName b)) ∧
    (ob ≠ .name → g.componentOrderKey ob a = g.componentOrderKey ob b →
      g.vertexName a = g.vertexName b →
      Component.orderCmp g ob d a b
        = cmpStr (remainingRelationKey g ob a) (remainingRelationKey g ob b)) ∧
    (g.vertexName a = g.vertexName b →
      Component.orderCmp g .name d a b
        = (cmpStr (g.componentTypeKey a) (g.componentTypeKey b)).then
            (cmpStr (g.componentVersionKey a) (g.componentVersionKey b))) ∧
    (g.bothE a RelationVersion.category = [] →
      g.componentVersionKey a = MAX_UNICODE_STR) ∧
    (g.bothE a RelationVersion.category = [] →
      cmpStr (g.componentVersionKey b) MAX_UNICODE_STR = .lt →
      Component.orderCmp g .version .asc a b = .gt ∧
      Component.orderCmp g .version .asc b a = .lt) := by
  refine ⟨?_, ?_, ?_, ?_, ?_, ?_, ?_⟩
  · intro hne heq
    apply hne
    cases ob with
    | version =>
      simp only [Component.orderCmp] at heq
      rw [ordering_then_eq_eq, ordering_then_eq_eq] at heq
      exact (cmpStr_eq_iff _ _).mp heq.2.1
    | ctype =>
      simp only [Component.orderCmp] at heq
      rw [ordering_then_eq_eq, ordering_then_eq_eq] at heq
      exact (cmpStr_eq_iff _ _).mp heq.2.1
    | name =>
      simp only [Component.orderCmp] at heq
      rw [ordering_then_eq_eq, applyDir_eq_eq] at heq
      exact (cmpStr_eq_iff _ _).mp heq.1
  · intro h
    cases ob <;>
      exact ordering_then_of_ne
        (fun hc => h ((applyDir_eq_eq _ _).mp hc)) _
  · intro hpk hn
    have hncmp : cmpStr (g.vertexName a) (g.vertexName b) ≠ .eq :=
      fun hc => hn ((cmpStr_eq_iff _ _).mp hc)
    cases ob with
    | version =>
      show (applyDir d (cmpStr (g.componentVersionKey a)
        (g.componentVersionKey b))).then _ = _
      rw [show cmpStr (g.componentVersionKey a) (g.componentVersionKey b)
            = .eq from (cmpStr_eq_iff _ _).mpr hpk, applyDir_eq]
      show Ordering.then .eq _ = _
      rw [show ∀ p, Ordering.then .eq p = p from fun _ => rfl]
      exact ordering_then_of_ne hncmp _
    | ctype =>
      show (applyDir d (cmpStr (g.componentTypeKey a)
        (g.componentTypeKey b))).then _ = _
      rw [show cmpStr (g.componentTypeKey a) (g.componentTypeKey b)
            = .eq from (cmpStr_eq_iff _ _).mpr hpk, applyDir_eq]
      rw [show ∀ p, Ordering.then .eq p = p from fun _ => rfl]
      exact ordering_then_of_ne hncmp _
    | name => exact absurd hpk hn
  · intro hob hpk hname
    cases ob with
    | name => exact absurd rfl hob
    | version =>
      show (applyDir d (cmpStr (g.componentVersionKey a)
        (g.componentVersionKey b))).then _ = _
      rw [show cmpStr (g.componentVersionKey a) (g.componentVersionKey b)
            = .eq from (cmpStr_eq_iff _ _).mpr hpk, applyDir_eq]
      rw [show ∀ p, Ordering.then .eq p = p from fun _ => rfl]
      rw [show cmpStr (g.vertexName a) (g.vertexName b)
            = .eq from (cmpStr_eq_iff _ _).mpr hname]
      rw [show ∀ p, Ordering.then .eq p = p from fun _ => rfl]
      rfl
    | ctype =>
      show (applyDir d (cmpStr (g.componentTypeKey a)
        (g.componentTypeKey b))).then _ = _
      rw [show cmpStr (g.componentTypeKey a) (g.componentTypeKey b)
            = .eq from (cmpStr_eq_iff _ _).mpr hpk, applyDir_eq]
      rw [show ∀ p, Ordering.then .eq p = p from fun _ => rfl]
      rw [show cmpStr (g.vertexName a) (g.vertexName b)
            = .eq from (cmpStr_eq_iff _ _).mpr hname]
      rw [show ∀ p, Ordering.then .eq p = p from fun _ => rfl]
      rfl
  · intro hname
    show (applyDir d (cmpStr (g.vertexName a) (g.vertexName b))).then _ = _
    rw [show cmpStr (g.vertexName a) (g.vertexName b)
          = .eq from (cmpStr_eq_iff _ _).mpr hname, applyDir_eq]
    rw [show ∀ p, Ordering.then .eq p = p from fun _ => rfl]
  · intro h
    simp [Graph.componentVersionKey, h]
  · intro h hlt
    have hka : g.componentVersionKey a = MAX_UNICODE_STR := by
      simp [Graph.componentVersionKey, h]
    constructor
    · show (applyDir .asc (cmpStr (g.componentVersionKey a)
        (g.componentVersionKey b))).then _ = _
      rw [hka, show cmpStr MAX_UNICODE_STR (g.componentVersionKey b) = .gt
            from by rw [cmpStr_swap, hlt]; rfl]
      rfl
    · show (applyDir .asc (cmpStr (g.componentVersionKey b)
        (g.componentVersionKey a))).then _ = _
      rw [hka, hlt]
      rfl

/-- C8 witness: in `gC8`, component 2 has no version edge, component 1 has
version `v1`; ordering by version ascending puts 2 after 1, and 2's
version key is the maximum Unicode character. -/
theorem C8_order_total_keys_witness :
    Component.orderCmp gC8 .version .asc 2 1 = .gt ∧
    Component.orderCmp gC8 .version .asc 1 2 = .lt ∧
    gC8.componentVersionKey 2 = MAX_UNICODE_STR :=
  ⟨((C8_order_total_keys gC8 .version .asc 2 1).2.2.2.2.2.2 rfl rfl).1,
   ((C8_order_total_keys gC8 .version .asc 2 1).2.2.2.2.2.2 rfl rfl).2,
   (C8_order_total_keys gC8 .version .asc 2 1).2.2.2.2.2.1 rfl⟩

/-- A successful `set_property_attach` returns the virtual copy built by
`Property.__init__`: its values and type are those of the supplied
property, and it passed the arity and regex checks. -/
theorem set_property_attach_ok {fullmatch : String → String → Bool}
    {g : Graph} {self : Component} {property : Property} {time : Int}
    {uid : String} {end_time : Int} {end_uid : String}
    {edit_time end_edit_time : Int} {comments end_comments : String}
    {g' : Graph} {p : Property}
    (h : Component.set_property_attach fullmatch g self property time uid
      end_time end_uid edit_time end_edit_time comments end_comments
      = (g', .ok p)) :
    p.values = property.values ∧ p.type = property.type ∧
    p.values.length = p.type.n_values ∧
    p.values.all (fullmatch p.type.allowed_regex) = true := by
  unfold Component.set_property_attach at h
  cases hinit : Property.init fullmatch property.values property.type
      VIRTUAL_ID_PLACEHOLDER with
  | error e => rw [hinit] at h; simp at h
  | ok prop0 =>
    rw [hinit] at h
    simp only [Prod.mk.injEq, Except.ok.injEq] at h
    unfold Property.init at hinit
    by_cases hlen : property.values.length ≠ property.type.n_values
    · rw [if_pos hlen] at hinit
      simp at hinit
    · rw [if_neg hlen] at hinit
      by_cases hreg : (!(property.values.all (fun val =>
          fullmatch property.type.allowed_regex val))) = true
      · rw [if_pos hreg] at hinit
        simp at hinit
      · rw [if_neg hreg] at hinit
        simp only [Except.ok.injEq] at hinit
        rw [← h.2, ← hinit]
        refine ⟨rfl, rfl, ?_, ?_⟩
        · simpa using not_ne_iff.mp hlen
        · simpa using hreg

/-- C9: every constructible `Property` satisfies the value invariant —
its values list has length `n_values` and every value passes the regex
oracle — construction fails with `PropertyWrongNValues` on the wrong
arity and with `PropertyNotMatchRegex` on a regex miss, and every
property returned (hence attached) by a successful `set_property` is a
copy carrying the supplied values and type and satisfying the same
invariant. -/
theorem C9_property_value_invariant (fullmatch : String → String → Bool)
    (values : List String) (type : PropertyType) (id : Int) :
    (∀ p, Property.init fullmatch values type id = .ok p →
      p.values = values ∧ p.type = type ∧
      p.values.length = p.type.n_values ∧
      p.values.all (fullmatch p.type.allowed_regex) = true) ∧
    (values.length ≠ type.n_values →
      Property.init fullmatch values type id = .error .propertyWrongNValues) ∧
    (values.length = type.n_values →
      values.all (fullmatch type.allowed_regex) = false →
      Property.init fullmatch values type id
        = .error .propertyNotMatchRegex) ∧
    (∀ (g g' : Graph) (self : Component) (property : Property) (time : Int)
       (uid : String) (end_time edit_time : Int) (comments : String)
       (force_property : Bool) (p : Property),
      Component.set_property fullmatch g self property time uid end_time
        edit_time comments force_property = (g', .ok p) →
      p.values = property.values ∧ p.type = property.type ∧
      p.values.length = p.type.n_values ∧
      p.values.all (fullmatch p.type.allowed_regex) = true) := by
  refine ⟨?_, ?_, ?_, ?_⟩
  · intro p hp
    unfold Property.init at hp
    by_cases hlen : values.length ≠ type.n_values
    · rw [if_pos hlen] at hp
      simp at hp
    · rw [if_neg hlen] at hp
      by_cases hreg : (!(values.all (fun val =>
          fullmatch type.allowed_regex val))) = true
      · rw [if_pos hreg] at hp
        simp at hp
      · rw [if_neg hreg] at hp
        simp only [Except.ok.injEq] at hp
        rw [← hp]
        refine ⟨rfl, rfl, ?_, ?_⟩
        · simpa using not_ne_iff.mp hlen
        · simpa using hreg
  · intro hlen
    unfold Property.init
    rw [if_pos hlen]
  · intro hlen hreg
    unfold Property.init
    rw [if_neg (by simp [hlen]), if_pos (by simp [hreg])]
  · intro g g' self property time uid end_time edit_time comments
      force_property p h
    rw [Component.set_property] at h
    repeat' split at h
    all_goals
      first
        | exact set_property_attach_ok h
        | simp_all

/-- C9 witness: on concrete inputs — a one-value property of type `pt`
with an always-true regex oracle — construction succeeds with the
invariant, and a successful `set_property` on `gC3` returns the copied
property (fresh vertex 13) carrying the supplied values and type. -/
theorem C9_property_value_invariant_witness :
    (({ values := ["x"], type := ptypeObjX, id := VIRTUAL_ID_PLACEHOLDER } :
        Property).values = ["x"] ∧
     ({ values := ["x"], type := ptypeObjX, id := VIRTUAL_ID_PLACEHOLDER } :
        Property).type = ptypeObjX ∧
     ({ values := ["x"], type := ptypeObjX, id := VIRTUAL_ID_PLACEHOLDER } :
        Property).values.length
        = ({ values := ["x"], type := ptypeObjX,
             id := VIRTUAL_ID_PLACEHOLDER } : Property).type.n_values ∧
     ({ values := ["x"], type := ptypeObjX, id := VIRTUAL_ID_PLACEHOLDER } :
        Property).values.all ((fun _ _ => true)
          ({ values := ["x"], type := ptypeObjX,
             id := VIRTUAL_ID_PLACEHOLDER } : Property).type.allowed_regex)
        = true) ∧
    (({ values := ["y"], type := ptypeObjX, id := 13 } : Property).values
        = propObjY.values ∧
     ({ values := ["y"], type := ptypeObjX, id := 13 } : Property).type
        = propObjY.type ∧
     ({ values := ["y"], type := ptypeObjX, id := 13 } : Property).values.length
        = ({ values := ["y"], type := ptypeObjX, id := 13 } :
            Property).type.n_values ∧
     ({ values := ["y"], type := ptypeObjX, id := 13 } : Property).values.all
        ((fun _ _ => true)
          ({ values := ["y"], type := ptypeObjX, id := 13 } :
            Property).type.allowed_regex) = true) :=
  ⟨(C9_property_value_invariant (fun _ _ => true) ["x"] ptypeObjX
      VIRTUAL_ID_PLACEHOLDER).1
      { values := ["x"], type := ptypeObjX, id := VIRTUAL_ID_PLACEHOLDER } rfl,
   (C9_property_value_invariant (fun _ _ => true) ["x"] ptypeObjX
      VIRTUAL_ID_PLACEHOLDER).2.2.2
      gC3
      (Component.set_property (fun _ _ => true) gC3 compObjA propObjY 50 "u"
        EXISTING_RELATION_END_PLACEHOLDER 60 "" false).1
      compObjA propObjY 50 "u" EXISTING_RELATION_END_PLACEHOLDER 60 "" false
      { values := ["y"], type := ptypeObjX, id := 13 } rfl⟩

/-- C10: `connect` and `subcomponent_connect` decide the self check by
*name* equality: any two persisted component objects with equal names —
including ones denoting two distinct graph vertices — make `connect` raise
`ConnectToSelf` and `subcomponent_connect` raise `SubcomponentToSelf`,
with the store unchanged (no edge is created). -/
theorem C10_self_check_by_name (g : Graph) (c1 c2 : Component) (time : Int)
    (uid : String) (end_time edit_time : Int) (comments : String)
    (force_connection : Bool)
    (h1 : c1.id ≠ VIRTUAL_ID_PLACEHOLDER) (h2 : c2.id ≠ VIRTUAL_ID_PLACEHOLDER)
    (hname : c1.name = c2.name) :
    Component.connect g c1 c2 time uid end_time edit_time comments
      force_connection = (g, .error .connectToSelf) ∧
    Component.subcomponent_connect g c1 c2
      = (g, .error .subcomponentToSelf) := by
  have ha1 : Component.added_to_db g c1 = true := by
    simp [Component.added_to_db, bne_iff_ne, h1]
  have ha2 : Component.added_to_db g c2 = true := by
    simp [Component.added_to_db, bne_iff_ne, h2]
  constructor
  · simp only [Component.connect, ha1, ha2]
    simp [hname]
  · simp only [Component.subcomponent_connect, ha1, ha2]
    simp [hname]

/-- C10 witness: the objects `compObjA` (vertex 1) and `compObjA2`
(vertex 2) share the name `A` but denote distinct vertices; on the empty
graph both operations raise the self errors. -/
theorem C10_self_check_by_name_witness :
    Component.connect gEmpty compObjA compObjA2 0 "u"
      EXISTING_RELATION_END_PLACEHOLDER 0 "" false
      = (gEmpty, .error .connectToSelf) ∧
    Component.subcomponent_connect gEmpty compObjA compObjA2
      = (gEmpty, .error .subcomponentToSelf) :=
  C10_self_check_by_name gEmpty compObjA compObjA2 0 "u"
    EXISTING_RELATION_END_PLACEHOLDER 0 "" false
    (by decide) (by decide) rfl

end Padloper
